import Mathlib

/-!
Verification of the research-pipeline orchestration core of the
`Research_agent` repository against its natural-language specification.

The Python sources are shallowly embedded: dynamically-typed values flow
through the pipeline as a `Json` tree; Python operations that can raise
(`d[k]`, `d.get` on a non-dict, iteration of a non-iterable, comparison of
incomparable types) are embedded in the `Except String` monad; numeric
values are exact rationals `ℚ`.  External capabilities (the remote LLM,
web search, image rendering) are modelled as oracle parameters, following
the spec, which declares them out of scope and swappable.
-/

namespace ResearchAgent

/-- Dynamically-typed Python/JSON value, the common currency of all stage
inputs and outputs in the repository. -/
inductive Json where
  | null : Json
  | bool (b : Bool) : Json
  | num (q : ℚ) : Json
  | str (s : String) : Json
  | arr (xs : List Json) : Json
  | obj (fields : List (String × Json)) : Json

namespace Json

mutual

/-- Structural equality test (Python `==` on JSON-like trees). -/
def eqb : Json → Json → Bool
  | .null, .null => true
  | .bool b1, .bool b2 => b1 == b2
  | .num q1, .num q2 => q1 == q2
  | .str s1, .str s2 => s1 == s2
  | .arr l1, .arr l2 => eqbList l1 l2
  | .obj f1, .obj f2 => eqbFields f1 f2
  | _, _ => false

def eqbList : List Json → List Json → Bool
  | hd1 :: tl1, hd2 :: tl2 => eqb hd1 hd2 && eqbList tl1 tl2
  | [], [] => true
  | _, _ => false

def eqbFields : List (String × Json) → List (String × Json) → Bool
  | (k1, v1) :: tl1, (k2, v2) :: tl2 => (k1 == k2 && eqb v1 v2) && eqbFields tl1 tl2
  | [], [] => true
  | _, _ => false

end

mutual

theorem eq_of_eqb : ∀ {a b : Json}, eqb a b = true → a = b
  | .null, .null, _ => rfl
  | .null, .bool _, h => by simp [eqb] at h
  | .null, .num _, h => by simp [eqb] at h
  | .null, .str _, h => by simp [eqb] at h
  | .null, .arr _, h => by simp [eqb] at h
  | .null, .obj _, h => by simp [eqb] at h
  | .bool _, .null, h => by simp [eqb] at h
  | .bool a, .bool c, h => by simp [eqb] at h; rw [h]
  | .bool _, .num _, h => by simp [eqb] at h
  | .bool _, .str _, h => by simp [eqb] at h
  | .bool _, .arr _, h => by simp [eqb] at h
  | .bool _, .obj _, h => by simp [eqb] at h
  | .num _, .null, h => by simp [eqb] at h
  | .num _, .bool _, h => by simp [eqb] at h
  | .num a, .num c, h => by simp [eqb] at h; rw [h]
  | .num _, .str _, h => by simp [eqb] at h
  | .num _, .arr _, h => by simp [eqb] at h
  | .num _, .obj _, h => by simp [eqb] at h
  | .str _, .null, h => by simp [eqb] at h
  | .str _, .bool _, h => by simp [eqb] at h
  | .str _, .num _, h => by simp [eqb] at h
  | .str a, .str c, h => by simp [eqb] at h; rw [h]
  | .str _, .arr _, h => by simp [eqb] at h
  | .str _, .obj _, h => by simp [eqb] at h
  | .arr _, .null, h => by simp [eqb] at h
  | .arr _, .bool _, h => by simp [eqb] at h
  | .arr _, .num _, h => by simp [eqb] at h
  | .arr _, .str _, h => by simp [eqb] at h
  | .arr xs, .arr ys, h => by
    exact congrArg Json.arr (listEq_of_eqbList (by simpa [eqb] using h))
  | .arr _, .obj _, h => by simp [eqb] at h
  | .obj _, .null, h => by simp [eqb] at h
  | .obj _, .bool _, h => by simp [eqb] at h
  | .obj _, .num _, h => by simp [eqb] at h
  | .obj _, .str _, h => by simp [eqb] at h
  | .obj _, .arr _, h => by simp [eqb] at h
  | .obj xs, .obj ys, h => by
    exact congrArg Json.obj (fieldsEq_of_eqbFields (by simpa [eqb] using h))

theorem listEq_of_eqbList : ∀ {xs ys : List Json}, eqbList xs ys = true → xs = ys
  | [], [], _ => rfl
  | [], _ :: _, h => by simp [eqbList] at h
  | _ :: _, [], h => by simp [eqbList] at h
  | x :: xs, y :: ys, h => by
    have h2 : eqb x y = true ∧ eqbList xs ys = true := by simpa [eqbList] using h
    rw [eq_of_eqb h2.1, listEq_of_eqbList h2.2]

theorem fieldsEq_of_eqbFields :
    ∀ {xs ys : List (String × Json)}, eqbFields xs ys = true → xs = ys
  | [], [], _ => rfl
  | [], _ :: _, h => by simp [eqbFields] at h
  | _ :: _, [], h => by simp [eqbFields] at h
  | (k1, v1) :: xs, (k2, v2) :: ys, h => by
    have h2 : (k1 = k2 ∧ eqb v1 v2 = true) ∧ eqbFields xs ys = true := by
      simpa [eqbFields] using h
    rw [h2.1.1, eq_of_eqb h2.1.2, fieldsEq_of_eqbFields h2.2]

end

mutual

theorem eqb_refl : ∀ a : Json, eqb a a = true
  | .null => rfl
  | .bool a => by simp [eqb]
  | .num a => by simp [eqb]
  | .str a => by simp [eqb]
  | .arr xs => by simpa [eqb] using eqbList_refl xs
  | .obj xs => by simpa [eqb] using eqbFields_refl xs

theorem eqbList_refl : ∀ xs : List Json, eqbList xs xs = true
  | [] => rfl
  | x :: xs => by simp [eqbList, eqb_refl x, eqbList_refl xs]

theorem eqbFields_refl : ∀ xs : List (String × Json), eqbFields xs xs = true
  | [] => rfl
  | (k, v) :: xs => by simp [eqbFields, eqb_refl v, eqbFields_refl xs]

end

instance : BEq Json := ⟨eqb⟩

instance : DecidableEq Json := fun a b =>
  if h : eqb a b = true then isTrue (eq_of_eqb h)
  else isFalse fun he => h (he ▸ eqb_refl a)

/-- Python truthiness of a value (`if x:`). -/
def truthy : Json → Bool
  | .null => false
  | .bool b => b
  | .num q => q ≠ 0
  | .str s => s ≠ ""
  | .arr xs => !xs.isEmpty
  | .obj fs => !fs.isEmpty

def isObj : Json → Bool
  | .obj _ => true
  | _ => false

def isArr : Json → Bool
  | .arr _ => true
  | _ => false

def isStr : Json → Bool
  | .str _ => true
  | _ => false

/-- Python `d.get(k, default)`: dictionary lookup with default; raises
`AttributeError` when the receiver is not a dict. -/
def getD : Json → String → Json → Except String Json
  | .obj fs, k, d => .ok ((fs.lookup k).getD d)
  | _, _, _ => .error "AttributeError: get"

/-- Python `d[k]`: subscript with a string key; `KeyError` when absent,
`TypeError` on any non-dict receiver. -/
def getItem : Json → String → Except String Json
  | .obj fs, k =>
    match fs.lookup k with
    | some v => .ok v
    | none => .error "KeyError"
  | _, _ => .error "TypeError: subscript"

/-- Python `len(x)` for the sized Python values; `TypeError` otherwise. -/
def pyLen : Json → Except String Nat
  | .arr xs => .ok xs.length
  | .str s => .ok s.length
  | .obj fs => .ok fs.length
  | _ => .error "TypeError: len"

/-- Coerce a value used in a numeric comparison (`x < 10`): numbers and
bools (Python bools are ints) compare, everything else raises `TypeError`. -/
def asNum : Json → Except String ℚ
  | .num q => .ok q
  | .bool b => .ok (if b then 1 else 0)
  | _ => .error "TypeError: comparison"

/-- The `x.lower()`-style string view; `AttributeError` on non-strings. -/
def asStr : Json → Except String String
  | .str s => .ok s
  | _ => .error "AttributeError: str expected"

/-- View a value as the list produced by `for x in v`, for loop bodies that
immediately call `x.get(...)` on each element.  Lists iterate their
elements; an empty string or empty dict iterates nothing; every other case
(numbers, None, bools, and non-empty strings or dicts, whose elements are
plain strings on which `.get` raises) is an error, observationally
identical to the source. -/
def iterList : Json → Except String (List Json)
  | .arr xs => .ok xs
  | .str "" => .ok []
  | .obj [] => .ok []
  | _ => .error "TypeError: iteration"

/-- Python `s.lower()`: per-character lowercasing. -/
def pyLower (s : String) : String := ⟨s.data.map Char.toLower⟩

/-- Contiguous-substring test on character lists (Python `needle in hay`
for strings). -/
def listIsInfix (needle : List Char) : List Char → Bool
  | [] => needle.isEmpty
  | b :: bs => needle.isPrefixOf (b :: bs) || listIsInfix needle bs

/-- Python membership test `k in v` for a string `k`: key lookup on dicts,
element equality on lists, substring test on strings, `TypeError` on the
rest. -/
def member (k : String) : Json → Except String Bool
  | .obj fs => .ok (fs.any fun kv => kv.1 == k)
  | .arr xs => .ok (xs.any fun x => x == Json.str k)
  | .str s => .ok (listIsInfix k.data s.data)
  | _ => .error "TypeError: not iterable"

end Json

/-- Dictionary update `d[k] = v`: overwrite in place when the key exists,
append at the end otherwise (Python dict insertion-order semantics). -/
def dictInsert : List (String × Json) → String → Json → List (String × Json)
  | [], k, v => [(k, v)]
  | (k1, v1) :: rest, k, v =>
    if k1 = k then (k1, v) :: rest else (k1, v1) :: dictInsert rest k v

theorem dictInsert_lookup (m : List (String × Json)) (k : String) (v : Json) :
    (dictInsert m k v).lookup k = some v := by
  induction m with
  | nil => simp [dictInsert, List.lookup]
  | cons hd tl ih =>
    obtain ⟨k1, v1⟩ := hd
    by_cases h : k1 = k
    · subst h; simp [dictInsert, List.lookup]
    · have hb : (k == k1) = false := by
        rw [beq_eq_false_iff_ne]; exact Ne.symm h
      simp [dictInsert, h, List.lookup, hb, ih]

theorem dictInsert_lookup_ne (m : List (String × Json)) (k k2 : String) (v : Json)
    (h : k2 ≠ k) : (dictInsert m k v).lookup k2 = m.lookup k2 := by
  have hb : (k2 == k) = false := by rw [beq_eq_false_iff_ne]; exact h
  induction m with
  | nil => simp [dictInsert, List.lookup, hb]
  | cons hd tl ih =>
    obtain ⟨k1, v1⟩ := hd
    by_cases hh : k1 = k
    · subst hh
      simp [dictInsert, List.lookup, hb]
    · by_cases h2 : k2 = k1
      · subst h2; simp [dictInsert, hh, List.lookup]
      · have hb2 : (k2 == k1) = false := by rw [beq_eq_false_iff_ne]; exact h2
        simp [dictInsert, hh, List.lookup, hb2, ih]

section ExceptLemmas

variable {α β : Type}

@[simp] theorem ok_bind (a : α) (f : α → Except String β) :
    (Except.ok a >>= f) = f a := rfl

@[simp] theorem error_bind (e : String) (f : α → Except String β) :
    ((Except.error e : Except String α) >>= f) = Except.error e := rfl

@[simp] theorem fmap_ok (g : α → β) (a : α) :
    (g <$> (Except.ok a : Except String α)) = Except.ok (g a) := rfl

@[simp] theorem fmap_error (g : α → β) (e : String) :
    (g <$> (Except.error e : Except String α)) = Except.error e := rfl

@[simp] theorem pure_eq_ok (a : α) : (pure a : Except String α) = Except.ok a := rfl

@[simp] theorem exceptMap_ok (g : α → β) (a : α) :
    (Except.ok a : Except String α).map g = Except.ok (g a) := rfl

@[simp] theorem exceptMap_error (g : α → β) (e : String) :
    (Except.error e : Except String α).map g = Except.error e := rfl

end ExceptLemmas

/-- Short-circuiting `any` over an effectful predicate
(Python `any(p(x) for x in xs)` where `p` may raise). -/
def anyM (p : Json → Except String Bool) : List Json → Except String Bool
  | [] => .ok false
  | x :: xs => do
    let b ← p x
    if b then pure true else anyM p xs

/-! ## CriticAgent (`backend/agents/critic_agent.py`) -/

/-- The fallback critique record returned by `_heuristic_critique`:
a dict with exactly these eight fields. -/
structure Critique where
  strengths : List String
  weaknesses : List String
  risks : List String
  recommended_fixes : List String
  critique_score : ℚ
  iterate : Bool
  suggested_next_steps : List String
  notes : String
  deriving DecidableEq

/-- Python `round(x, 3)`.  Python rounds half to even; every critique score
reachable in the fallback critic is an exact multiple of 1/1000, on which no
tie-breaking occurs, so floor-based half-up rounding coincides with the
source on all reachable values. -/
def round3 (q : ℚ) : ℚ := (⌊q * 1000 + 1 / 2⌋ : ℚ) / 1000

/-- Extraction `methods = proposal.get("experiment_design", {}).get("methods", [])
if isinstance(proposal, dict) else []` where
`proposal = experiment_result.get("experiment_proposal", {})`
(critic_agent.py line 133). -/
def methodsOf (experiment_result : Json) : Except String Json := do
  let proposal ← experiment_result.getD "experiment_proposal" (Json.obj [])
  if proposal.isObj then do
    let ed ← proposal.getD "experiment_design" (Json.obj [])
    ed.getD "methods" (Json.arr [])
  else pure (Json.arr [])

/-- Extraction `metrics = proposal.get("experiment_design", {}).get("metrics", [])
if isinstance(proposal, dict) else []` (critic_agent.py line 140). -/
def metricsOf (experiment_result : Json) : Except String Json := do
  let proposal ← experiment_result.getD "experiment_proposal" (Json.obj [])
  if proposal.isObj then do
    let ed ← proposal.getD "experiment_design" (Json.obj [])
    ed.getD "metrics" (Json.arr [])
  else pure (Json.arr [])

/-- Extraction `tools = proposal.get("experiment_design", {}).get("tools", [])`
(critic_agent.py line 152; note: unlike methods/metrics, NOT guarded by
`isinstance(proposal, dict)`, so a non-dict proposal raises here). -/
def toolsOf (experiment_result : Json) : Except String Json := do
  let proposal ← experiment_result.getD "experiment_proposal" (Json.obj [])
  let ed ← proposal.getD "experiment_design" (Json.obj [])
  ed.getD "tools" (Json.arr [])

/-- Check `any(d.get("num_images", 0) < 10 for d in ds)` (critic_agent.py
lines 147 and 161). -/
def smallSample (ds : Json) : Except String Bool := do
  let items ← ds.iterList
  anyM (fun d => do
    let v ← d.getD "num_images" (Json.num 0)
    let q ← v.asNum
    pure (decide (q < 10))) items

/-- Check `any(t.get("name", "").lower() in ("tensorflow", "pytorch") for t in
tools)` (critic_agent.py line 153). -/
def toolkitCheck (tools : Json) : Except String Bool := do
  let ts ← tools.iterList
  anyM (fun t => do
    let nm ← t.getD "name" (Json.str "")
    let s ← nm.asStr
    pure (Json.pyLower s == "tensorflow" || Json.pyLower s == "pytorch")) ts

/-- The risks list computed by `_heuristic_critique` (lines 147-150):
a small-sample risk, then a missing-metrics risk. -/
def risksOf (experiment_result : Json) : Except String (List String) := do
  let ds ← experiment_result.getD "dataset_analysis" (Json.arr [])
  let small ← smallSample ds
  let metrics ← metricsOf experiment_result
  pure ((if small then
          ["Small sample size in at least one dataset may limit statistical power."] else [])
    ++ (if metrics.truthy then [] else
          ["No quantitative evaluation may lead to ambiguous conclusions."]))

/-- The pure tail of `_heuristic_critique`: given the dataset truthiness
and length, and the truthiness of the extracted methods/metrics, the
small-sample flag and the toolkit flag, build the returned record exactly
as lines 125-190 of critic_agent.py do. -/
def assembleCritique (dsTruthy : Bool) (dsLen : Nat)
    (methodsT metricsT small toolkit : Bool) : Critique :=
  let strengths :=
    (if dsTruthy then
      ["Datasets are real scientific data and contain images suitable for image analysis.",
       "Found " ++ toString dsLen ++ " dataset(s) with sample visualizations."] else [])
    ++ (if methodsT then ["Experiment proposal includes concrete methods."] else [])
    ++ (if metricsT then ["Relevant metrics have been proposed."] else [])
    ++ (if toolkit then ["Proposal references robust ML toolkits for model training."] else [])
  let weaknesses :=
    (if dsTruthy then [] else ["No datasets available for analysis."])
    ++ (if methodsT then [] else ["Experiment proposal lacks concrete methods."])
    ++ (if metricsT then [] else ["No clear evaluation metrics provided."])
    ++ (if toolkit then [] else ["No mainstream ML toolset specified (TensorFlow/PyTorch)."])
  let risks :=
    (if small then
      ["Small sample size in at least one dataset may limit statistical power."] else [])
    ++ (if metricsT then [] else
      ["No quantitative evaluation may lead to ambiguous conclusions."])
  let fixes :=
    (if metricsT then [] else
      ["Define 2-3 measurable quantitative metrics with thresholds for success."])
    ++ (if small then
      ["Aggregate smaller datasets or use data augmentation to increase sample size."] else [])
    ++ ["Add a control group or baseline model to quantify improvement."]
  let score0 : ℚ :=
    1 / 2 + 3 / 20 * (if methodsT then 1 else -(1 / 10))
          + 1 / 10 * (if metricsT then 1 else -(3 / 20))
          + 1 / 10 * (if risks.isEmpty then 1 / 20 else 0)
  let score : ℚ := max 0 (min 1 score0)
  { strengths := strengths
    weaknesses := weaknesses
    risks := risks
    recommended_fixes := fixes
    critique_score := round3 score
    iterate := !weaknesses.isEmpty || !risks.isEmpty || decide (score < 4 / 5)
    suggested_next_steps :=
      ["Run EDA to compute class imbalance and per-condition sample counts.",
       "Implement a simple baseline model (e.g., logistic regression on handcrafted features) to get baseline metrics.",
       "If image counts are low, apply augmentation or combine similar datasets."]
    notes := "Used heuristic fallback critique (LLM not available or failed)." }

/-- Embedding of `CriticAgent._heuristic_critique` (critic_agent.py lines 110-190);
the fallible extraction steps are sequenced in source order, the pure
record construction is `assembleCritique`. -/
def heuristicCritique (domain_info experiment_result : Json) :
    Except String Critique := do
  let ds ← experiment_result.getD "dataset_analysis" (Json.arr [])
  let _proposal ← experiment_result.getD "experiment_proposal" (Json.obj [])
  let dsInfo ← (if ds.truthy then do
      let n ← ds.pyLen
      pure (true, n)
    else pure (false, 0))
  let methods ← methodsOf experiment_result
  let metrics ← metricsOf experiment_result
  let small ← smallSample ds
  let tools ← toolsOf experiment_result
  let toolkit ← toolkitCheck tools
  pure (assembleCritique ds.truthy dsInfo.2 methods.truthy metrics.truthy small toolkit)

/-- Render a critique record back to the returned JSON dict (lines 181-190). -/
def strList (xs : List String) : Json := Json.arr (xs.map Json.str)

def critToJson (c : Critique) : Json :=
  Json.obj [("strengths", strList c.strengths), ("weaknesses", strList c.weaknesses),
    ("risks", strList c.risks), ("recommended_fixes", strList c.recommended_fixes),
    ("critique_score", Json.num c.critique_score), ("iterate", Json.bool c.iterate),
    ("suggested_next_steps", strList c.suggested_next_steps), ("notes", Json.str c.notes)]

/-- The "safe fallback minimal response" returned when even the heuristic
critique raises (critic_agent.py lines 221-230). -/
def safeFallbackCritique (e : String) : Json :=
  Json.obj [("strengths", Json.arr []),
    ("weaknesses", Json.arr [Json.str "Critic agent failed unexpectedly."]),
    ("risks", Json.arr []),
    ("recommended_fixes", Json.arr [Json.str "Inspect logs."]),
    ("critique_score", Json.num 0),
    ("iterate", Json.bool true),
    ("suggested_next_steps", Json.arr [Json.str "Check CriticAgent logs for exceptions."]),
    ("notes", Json.str ("Exception: " ++ e))]

/-- The minimal-field validation applied to a parsed LLM critique
(critic_agent.py lines 205-207): only these five keys are checked. -/
def llmValidatedKeys : List String :=
  ["strengths", "weaknesses", "recommended_fixes", "critique_score", "iterate"]

def requireKeys : List String → Json → Except String Unit
  | [], _ => .ok ()
  | k :: ks, result => do
    let m ← Json.member k result
    if m then requireKeys ks result
    else .error ("Missing key from LLM result: " ++ k)

/-- Embedding of `CriticAgent.critique` (lines 193-230).  The remote call plus JSON
parsing is the oracle `llmResult` (`Except.error` = the call or the parse
raised); `llmAvailable` is `self.llm` being non-None. -/
def critiqueDispatch (llmAvailable : Bool) (llmResult : Except String Json)
    (domain_info experiment_result : Json) : Json :=
  let attempt : Except String Json :=
    if llmAvailable then
      match (do
        let r ← llmResult
        requireKeys llmValidatedKeys r
        pure r : Except String Json) with
      | .ok r => .ok r
      | .error _ => (heuristicCritique domain_info experiment_result).map critToJson
    else (heuristicCritique domain_info experiment_result).map critToJson
  match attempt with
  | .ok j => j
  | .error e => safeFallbackCritique e

/-- A fully-populated experiment record in the shape the designer actually
produces: methods, metrics and tools under
`experiment_proposal.experiment_design`, one dataset with 20 images. -/
def erFull : Json :=
  Json.obj [
    ("dataset_analysis", Json.arr [Json.obj [("dataset_name", Json.str "demo"),
      ("num_images", Json.num 20)]]),
    ("experiment_proposal", Json.obj [
      ("experiment_design", Json.obj [
        ("methods", Json.arr [Json.obj [("name", Json.str "Image Analysis")]]),
        ("metrics", Json.arr [Json.obj [("name", Json.str "Accuracy")]]),
        ("tools", Json.arr [Json.obj [("name", Json.str "TensorFlow")]])])])]

/-- An experiment record laid out exactly as §3 of the spec describes the
ExperimentRecord: hypotheses, methods, metrics, tools and visualization_spec
directly inside experiment_proposal (no experiment_design level), with
non-empty methods and metrics and no small-sample dataset. -/
def erSpec3 : Json :=
  Json.obj [
    ("dataset_analysis", Json.arr []),
    ("experiment_proposal", Json.obj [
      ("hypotheses", Json.arr []),
      ("methods", Json.arr [Json.str "Image Analysis"]),
      ("metrics", Json.arr [Json.str "Accuracy"]),
      ("tools", Json.arr []),
      ("visualization_spec", Json.obj [])])]

/-- The input class of claim C4, following the spec's §3 ExperimentRecord
shape word for word: `experiment_proposal` carries non-empty `methods` and
`metrics` directly, and no dataset in `dataset_analysis` has a sample count
below 10. -/
def nonEmptyArr : Json → Bool
  | .arr (_ :: _) => true
  | _ => false

def spec3CritiqueInput : Json → Bool
  | .obj fs =>
    (match fs.lookup "experiment_proposal" with
     | some (Json.obj pf) =>
       nonEmptyArr ((pf.lookup "methods").getD Json.null) &&
       nonEmptyArr ((pf.lookup "metrics").getD Json.null)
     | _ => false) &&
    (match fs.lookup "dataset_analysis" with
     | some (Json.arr ds) => ds.all fun dEntry =>
       match dEntry with
       | .obj df =>
         (match df.lookup "num_images" with
          | some (Json.num q) => decide (10 ≤ q)
          | _ => false)
       | _ => false
     | _ => false)
  | _ => false

/-- The CritiqueRecord shape the spec declares invariant (§3): exactly the
eight fields, with `critique_score` a number in `[0, 1]` and `iterate` a
boolean. -/
def critiqueFieldNames : List String :=
  ["strengths", "weaknesses", "risks", "recommended_fixes", "critique_score",
   "iterate", "suggested_next_steps", "notes"]

def hasCritiqueShape : Json → Bool
  | .obj fs =>
    (critiqueFieldNames.all fun k => fs.any fun kv => kv.1 == k) &&
    (fs.all fun kv => critiqueFieldNames.contains kv.1) &&
    (match fs.lookup "critique_score" with
     | some (Json.num q) => decide (0 ≤ q) && decide (q ≤ 1)
     | _ => false) &&
    (match fs.lookup "iterate" with
     | some (Json.bool _) => true
     | _ => false)
  | _ => false

/-- Successful runs of the heuristic critique are exactly
`assembleCritique` applied to the extracted flags. -/
theorem heuristicCritique_spec (d er : Json) (c : Critique)
    (h : heuristicCritique d er = .ok c) :
    ∃ ds n methods metrics small tools tk,
      er.getD "dataset_analysis" (Json.arr []) = .ok ds ∧
      methodsOf er = .ok methods ∧ metricsOf er = .ok metrics ∧
      smallSample ds = .ok small ∧ toolsOf er = .ok tools ∧
      toolkitCheck tools = .ok tk ∧
      c = assembleCritique ds.truthy n methods.truthy metrics.truthy small tk := by
  unfold heuristicCritique at h
  cases hds : er.getD "dataset_analysis" (Json.arr []) with
  | error e => simp [hds] at h
  | ok ds =>
  cases hp : er.getD "experiment_proposal" (Json.obj []) with
  | error e => simp [hds, hp] at h
  | ok p =>
  cases hm : methodsOf er with
  | error e =>
    cases hdt : ds.truthy with
    | true =>
      cases hlen : ds.pyLen with
      | error e2 => simp [hds, hp, hdt, hlen] at h
      | ok n => simp [hds, hp, hdt, hlen, hm] at h
    | false => simp [hds, hp, hdt, hm] at h
  | ok methods =>
  cases ht : metricsOf er with
  | error e =>
    cases hdt : ds.truthy with
    | true =>
      cases hlen : ds.pyLen with
      | error e2 => simp [hds, hp, hdt, hlen] at h
      | ok n => simp [hds, hp, hdt, hlen, hm, ht] at h
    | false => simp [hds, hp, hdt, hm, ht] at h
  | ok metrics =>
  cases hs : smallSample ds with
  | error e =>
    cases hdt : ds.truthy with
    | true =>
      cases hlen : ds.pyLen with
      | error e2 => simp [hds, hp, hdt, hlen] at h
      | ok n => simp [hds, hp, hdt, hlen, hm, ht, hs] at h
    | false => simp [hds, hp, hdt, hm, ht, hs] at h
  | ok small =>
  cases htl : toolsOf er with
  | error e =>
    cases hdt : ds.truthy with
    | true =>
      cases hlen : ds.pyLen with
      | error e2 => simp [hds, hp, hdt, hlen] at h
      | ok n => simp [hds, hp, hdt, hlen, hm, ht, hs, htl] at h
    | false => simp [hds, hp, hdt, hm, ht, hs, htl] at h
  | ok tools =>
  cases htk : toolkitCheck tools with
  | error e =>
    cases hdt : ds.truthy with
    | true =>
      cases hlen : ds.pyLen with
      | error e2 => simp [hds, hp, hdt, hlen] at h
      | ok n => simp [hds, hp, hdt, hlen, hm, ht, hs, htl, htk] at h
    | false => simp [hds, hp, hdt, hm, ht, hs, htl, htk] at h
  | ok tk =>
  cases hdt : ds.truthy with
  | true =>
    cases hlen : ds.pyLen with
    | error e2 => simp [hds, hp, hm, ht, hs, htl, htk, hdt, hlen] at h
    | ok n =>
      refine ⟨ds, n, methods, metrics, small, tools, tk, rfl, rfl, rfl, hs, rfl, htk, ?_⟩
      simp [hds, hp, hm, ht, hs, htl, htk, hdt, hlen] at h
      rw [hdt]
      exact h.symm
  | false =>
    refine ⟨ds, 0, methods, metrics, small, tools, tk, rfl, rfl, rfl, hs, rfl, htk, ?_⟩
    simp [hds, hp, hm, ht, hs, htl, htk, hdt] at h
    rw [hdt]
    exact h.symm

section
set_option maxHeartbeats 1000000

/-- The score produced by the assembled fallback critique, by cases on the
three flags it depends on (dataset truthiness, length and the toolkit flag
do not enter the score). -/
theorem assemble_score (dsT : Bool) (n : Nat) (mT tT small tk : Bool) :
    (assembleCritique dsT n mT tT small tk).critique_score =
      if mT && tT && !small then 151 / 200
      else if mT && tT then 3 / 4
      else if mT then 127 / 200
      else if tT && !small then 59 / 100
      else if tT then 117 / 200
      else 47 / 100 := by
  cases mT <;> cases tT <;> cases small <;>
    norm_num [assembleCritique, round3]

/-- The fallback critique always asks for another iteration. -/
theorem assemble_iterate (dsT : Bool) (n : Nat) (mT tT small tk : Bool) :
    (assembleCritique dsT n mT tT small tk).iterate = true := by
  cases dsT <;> cases mT <;> cases tT <;> cases small <;> cases tk <;>
    norm_num [assembleCritique]

end

theorem assemble_score_bounds (dsT : Bool) (n : Nat) (mT tT small tk : Bool) :
    47 / 100 ≤ (assembleCritique dsT n mT tT small tk).critique_score ∧
      (assembleCritique dsT n mT tT small tk).critique_score ≤ 151 / 200 := by
  rw [assemble_score]
  cases mT <;> cases tT <;> cases small <;> norm_num

theorem assemble_score_lt (dsT : Bool) (n : Nat) (mT tT small tk : Bool) :
    (assembleCritique dsT n mT tT small tk).critique_score < 4 / 5 := by
  rw [assemble_score]
  cases mT <;> cases tT <;> cases small <;> norm_num

/-- C3: for every domain_info and experiment_result on which the fallback
critique runs to completion, the returned critique_score equals: base 0.5;
plus 0.15 if the extracted methods list is non-empty else minus 0.015
(= 0.15 × 0.1); plus 0.10 if the extracted metrics list is non-empty else
minus 0.015 (= 0.1 × 0.15); plus 0.005 (= 0.1 × 0.05) if the computed risks
list is empty, else plus 0; the sum clamped to [0, 1] and rounded to three
decimals. -/
theorem heuristic_score_formula (d er : Json) (c : Critique) (m t : Json)
    (r : List String)
    (hc : heuristicCritique d er = .ok c)
    (hm : methodsOf er = .ok m) (ht : metricsOf er = .ok t)
    (hr : risksOf er = .ok r) :
    c.critique_score =
      round3 (max 0 (min 1 ((1 : ℚ) / 2
        + (if m.truthy then (3 : ℚ) / 20 else -(3 / 200))
        + (if t.truthy then (1 : ℚ) / 10 else -(3 / 200))
        + (if r = [] then (1 : ℚ) / 200 else 0)))) := by
  obtain ⟨ds, n, methods, metrics, small, tools, tk, hds, hm2, ht2, hs, htl, htk, hceq⟩ :=
    heuristicCritique_spec d er c hc
  rw [hm] at hm2
  rw [ht] at ht2
  injection hm2 with hm2
  injection ht2 with ht2
  subst hm2
  subst ht2
  simp only [risksOf, hds, hs, ht, ok_bind, pure_eq_ok, Except.ok.injEq] at hr
  subst hceq
  rw [assemble_score, ← hr]
  cases hmt : m.truthy <;> cases htt : t.truthy <;> cases hsm : small <;>
    norm_num [round3] <;> (rw [if_neg (by simp)]; norm_num [round3])

/-- C5: in the fallback critique, the returned iterate flag is true exactly
when weaknesses or risks are non-empty or the (clamped) score is below 0.8;
in particular, whenever the extracted metrics list is empty, iterate is
true. -/
theorem heuristic_iterate_iff (d er : Json) (c : Critique)
    (hc : heuristicCritique d er = .ok c) :
    (c.iterate = true ↔
      (c.weaknesses ≠ [] ∨ c.risks ≠ [] ∨ c.critique_score < 4 / 5)) ∧
    (∀ t, metricsOf er = .ok t → t.truthy = false → c.iterate = true) := by
  obtain ⟨ds, n, methods, metrics, small, tools, tk, _, _, _, _, _, _, hceq⟩ :=
    heuristicCritique_spec d er c hc
  subst hceq
  refine ⟨⟨fun _ => Or.inr (Or.inr (assemble_score_lt _ _ _ _ _ _)), fun _ =>
    assemble_iterate _ _ _ _ _ _⟩, fun _ _ _ => assemble_iterate _ _ _ _ _ _⟩

/-- C10 (implicit): the fallback critique's clamped, rounded score always
lies in [0.47, 0.755], and since 0.755 < 0.8 the fallback strategy always
returns iterate = true. -/
theorem heuristic_score_range (d er : Json) (c : Critique)
    (hc : heuristicCritique d er = .ok c) :
    47 / 100 ≤ c.critique_score ∧ c.critique_score ≤ 151 / 200 ∧
      c.iterate = true := by
  obtain ⟨ds, n, methods, metrics, small, tools, tk, _, _, _, _, _, _, hceq⟩ :=
    heuristicCritique_spec d er c hc
  subst hceq
  obtain ⟨h1, h2⟩ := assemble_score_bounds ds.truthy n methods.truthy metrics.truthy small tk
  exact ⟨h1, h2, assemble_iterate _ _ _ _ _ _⟩

/-- Witness for C3: on a fully-populated record the hypotheses hold and the
formula yields 0.755. -/
theorem heuristic_score_formula_witness :
    heuristicCritique (Json.obj []) erFull =
      .ok (assembleCritique true 1 true true false true) ∧
    (assembleCritique true 1 true true false true).critique_score =
      round3 (max 0 (min 1 ((1 : ℚ) / 2
        + (if (Json.arr [Json.obj [("name", Json.str "Image Analysis")]]).truthy
            then (3 : ℚ) / 20 else -(3 / 200))
        + (if (Json.arr [Json.obj [("name", Json.str "Accuracy")]]).truthy
            then (1 : ℚ) / 10 else -(3 / 200))
        + (if ([] : List String) = [] then (1 : ℚ) / 200 else 0)))) :=
  ⟨rfl, heuristic_score_formula (Json.obj []) erFull
    (assembleCritique true 1 true true false true)
    (Json.arr [Json.obj [("name", Json.str "Image Analysis")]])
    (Json.arr [Json.obj [("name", Json.str "Accuracy")]]) [] rfl rfl rfl rfl⟩

/-- Witness for C5: an empty experiment record has empty extracted metrics
and the fallback critique indeed sets iterate. -/
theorem heuristic_iterate_iff_witness :
    heuristicCritique (Json.obj []) (Json.obj []) =
      .ok (assembleCritique false 0 false false false false) ∧
    metricsOf (Json.obj []) = .ok (Json.arr []) ∧
    (Json.arr []).truthy = false ∧
    (assembleCritique false 0 false false false false).iterate = true :=
  ⟨rfl, rfl, rfl,
    (heuristic_iterate_iff (Json.obj []) (Json.obj [])
      (assembleCritique false 0 false false false false) rfl).2
      (Json.arr []) rfl rfl⟩

/-- Witness for C10: concrete bounds at a fully-populated record. -/
theorem heuristic_score_range_witness :
    heuristicCritique (Json.obj []) erFull =
      .ok (assembleCritique true 1 true true false true) ∧
    (47 / 100 ≤ (assembleCritique true 1 true true false true).critique_score ∧
      (assembleCritique true 1 true true false true).critique_score ≤ 151 / 200 ∧
      (assembleCritique true 1 true true false true).iterate = true) :=
  ⟨rfl, heuristic_score_range (Json.obj []) erFull
    (assembleCritique true 1 true true false true) rfl⟩

/-- Counterexample to C4: an experiment record shaped exactly as §3
describes (methods and metrics directly inside experiment_proposal,
non-empty, and no small-sample dataset) gets fallback score 0.47, not at
least 0.75, because the code reads methods and metrics one level deeper,
under experiment_proposal.experiment_design. -/
theorem heuristic_spec3_counterexample :
    spec3CritiqueInput erSpec3 = true ∧
    (heuristicCritique (Json.obj []) erSpec3).map Critique.critique_score =
      .ok (47 / 100) ∧
    ¬ ((3 : ℚ) / 4 ≤ 47 / 100) := by
  refine ⟨rfl, ?_, by norm_num⟩
  have h : heuristicCritique (Json.obj []) erSpec3 =
      .ok (assembleCritique false 0 false false false false) := rfl
  rw [h, exceptMap_ok, assemble_score]
  norm_num

/-- C4 (amended): when the non-empty methods and metrics sit where the
code reads them — under experiment_proposal.experiment_design — and no
dataset has a sample count below 10, the fallback critique_score is at
least 0.75 and at most 1. -/
theorem heuristic_score_lower_bound (d er : Json) (c : Critique) (m t ds : Json)
    (hc : heuristicCritique d er = .ok c)
    (hm : methodsOf er = .ok m) (hmt : m.truthy = true)
    (ht : metricsOf er = .ok t) (htt : t.truthy = true)
    (hds : er.getD "dataset_analysis" (Json.arr []) = .ok ds)
    (hsm : smallSample ds = .ok false) :
    3 / 4 ≤ c.critique_score ∧ c.critique_score ≤ 1 := by
  obtain ⟨ds2, n, methods, metrics, small, tools, tk, hds2, hm2, ht2, hs2, _, _, hceq⟩ :=
    heuristicCritique_spec d er c hc
  rw [hm] at hm2
  rw [ht] at ht2
  rw [hds] at hds2
  injection hm2 with hm2
  injection ht2 with ht2
  injection hds2 with hds2
  subst hm2
  subst ht2
  subst hds2
  rw [hsm] at hs2
  injection hs2 with hs2
  subst hceq
  rw [assemble_score, hmt, htt, ← hs2]
  norm_num

/-- Witness for the amended C4: the fully-populated record reaches the
0.75 lower bound. -/
theorem heuristic_score_lower_bound_witness :
    heuristicCritique (Json.obj []) erFull =
      .ok (assembleCritique true 1 true true false true) ∧
    (3 / 4 ≤ (assembleCritique true 1 true true false true).critique_score ∧
      (assembleCritique true 1 true true false true).critique_score ≤ 1) :=
  ⟨rfl, heuristic_score_lower_bound (Json.obj []) erFull
    (assembleCritique true 1 true true false true)
    (Json.arr [Json.obj [("name", Json.str "Image Analysis")]])
    (Json.arr [Json.obj [("name", Json.str "Accuracy")]])
    (Json.arr [Json.obj [("dataset_name", Json.str "demo"),
      ("num_images", Json.num 20)]])
    rfl rfl rfl rfl rfl rfl rfl⟩

theorem critToJson_shape (c : Critique) (h0 : 0 ≤ c.critique_score)
    (h1 : c.critique_score ≤ 1) : hasCritiqueShape (critToJson c) = true := by
  simp [hasCritiqueShape, critToJson, critiqueFieldNames, List.lookup, h0, h1]

theorem safeFallback_shape (e : String) :
    hasCritiqueShape (safeFallbackCritique e) = true := by
  simp [hasCritiqueShape, safeFallbackCritique, critiqueFieldNames, List.lookup]

/-- Whenever the dispatcher takes the fallback path, the returned value has
the full CritiqueRecord shape (either the heuristic record or, if even the
heuristic raises, the safe minimal record). -/
theorem fallback_path_shape (d er : Json) :
    hasCritiqueShape (match (heuristicCritique d er).map critToJson with
      | .ok j => j
      | .error e => safeFallbackCritique e) = true := by
  cases hh : heuristicCritique d er with
  | ok c =>
    obtain ⟨ds, n, methods, metrics, small, tools, tk, _, _, _, _, _, _, hceq⟩ :=
      heuristicCritique_spec d er c hh
    subst hceq
    obtain ⟨h1, h2⟩ :=
      assemble_score_bounds ds.truthy n methods.truthy metrics.truthy small tk
    exact critToJson_shape _ (le_trans (by norm_num) h1)
      (le_trans h2 (by norm_num))
  | error e =>
    exact safeFallback_shape e

/-- Counterexample to C6: a parsed LLM reply carrying only the five
validated keys — and a critique_score of 1.5, outside [0, 1] — passes the
dispatcher's validation and is returned unchanged, without risks,
suggested_next_steps or notes. -/
theorem critique_shape_counterexample :
    critiqueDispatch true
      (.ok (Json.obj [("strengths", Json.arr []), ("weaknesses", Json.arr []),
        ("recommended_fixes", Json.arr []), ("critique_score", Json.num (3 / 2)),
        ("iterate", Json.bool true)]))
      (Json.obj []) (Json.obj []) =
      Json.obj [("strengths", Json.arr []), ("weaknesses", Json.arr []),
        ("recommended_fixes", Json.arr []), ("critique_score", Json.num (3 / 2)),
        ("iterate", Json.bool true)] ∧
    hasCritiqueShape
      (Json.obj [("strengths", Json.arr []), ("weaknesses", Json.arr []),
        ("recommended_fixes", Json.arr []), ("critique_score", Json.num (3 / 2)),
        ("iterate", Json.bool true)]) = false :=
  ⟨rfl, rfl⟩

/-- C6 (amended): every value the critique operation returns either has
exactly the eight CritiqueRecord fields with critique_score in [0, 1] and a
boolean iterate — which both fallback strategies always guarantee — or is
the primary strategy's parsed result returned unchanged after a validation
that checks only the presence of strengths, weaknesses, recommended_fixes,
critique_score and iterate. -/
theorem critique_shape_amended (llmAvailable : Bool)
    (llmResult : Except String Json) (d er : Json) :
    hasCritiqueShape (critiqueDispatch llmAvailable llmResult d er) = true ∨
    ∃ r, llmResult = .ok r ∧ critiqueDispatch llmAvailable llmResult d er = r := by
  unfold critiqueDispatch
  cases llmAvailable with
  | false => exact Or.inl (fallback_path_shape d er)
  | true =>
    cases llmResult with
    | error e =>
      simp only [error_bind]
      exact Or.inl (fallback_path_shape d er)
    | ok r =>
      simp only [ok_bind]
      cases hv : requireKeys llmValidatedKeys r with
      | ok u =>
        simp only [hv, ok_bind, pure_eq_ok]
        exact Or.inr ⟨r, rfl, rfl⟩
      | error e =>
        simp only [hv, error_bind]
        exact Or.inl (fallback_path_shape d er)

/-! ## MemoryManager structured store (`backend/utils/vector_memory.py`) -/

/-- The structured half of `MemoryManager`: the in-memory dict plus the
content of `structured_memory.json` (`none` = no file yet).  `json.dump`
and `json.load` are the external json library, which round-trips the
tree-of-primitives values the pipeline stores, so the file content is
modelled as the persisted mapping itself. -/
structure MemoryState where
  structured_memory : List (String × Json)
  disk : Option (List (String × Json))
  deriving DecidableEq

def MemoryState.init : MemoryState := { structured_memory := [], disk := none }

/-- Embedding of `MemoryManager.add` (lines 47-58): update the in-memory dict, then
persist the full mapping; `_save_structured` catches any write failure
(oracle `saveOk`), so a failed write leaves the previous file content and
never raises — the in-memory update already happened. -/
def memAdd (st : MemoryState) (k : String) (v : Json) (saveOk : Bool) :
    MemoryState :=
  let mem2 := dictInsert st.structured_memory k v
  { structured_memory := mem2, disk := if saveOk then some mem2 else st.disk }

/-- Embedding of `MemoryManager.get(key, default=None)` (lines 60-66): total, never
raises. -/
def memGet (st : MemoryState) (k : String) (default : Json) : Json :=
  (st.structured_memory.lookup k).getD default

/-- A fresh `MemoryManager` over the same storage path: `__init__` starts
from an empty dict and `_load_structured` (lines 80-88) replaces it with
the parsed file content when the file exists. -/
def restartStore (st : MemoryState) : MemoryState :=
  { structured_memory := st.disk.getD [], disk := st.disk }

/-! ## Orchestrator (`backend/agents/orchestrator.py`) -/

/-- The six stage invocations `_run_once` makes, as oracles standing for
the agents (each backed by remote capabilities and file I/O that may
throw). -/
structure StageOracles where
  discover : Except String Json
  generateQuestions : Json → Except String Json
  findData : Json → Json → Except String Json
  designExperiment : Json → Json → Except String Json
  critiqueStage : Json → Json → Except String Json
  generatePaper : Json → Json → Json → Json → Json → Except String Json

/-- The degraded value substituted when DataFinder fails (line 95). -/
def degradedData : Json :=
  Json.obj [("metadata", Json.arr []), ("summary", Json.str "DataFinder failed.")]

/-- The body of the try at lines 91-92: `domain_info["domain_name"]` is
evaluated inside the try, then DataFinder runs. -/
def dataAttempt (o : StageOracles) (domain_info questions : Json) :
    Except String Json := do
  let dn ← domain_info.getItem "domain_name"
  o.findData dn questions

/-- Embedding of `Orchestrator._run_once` (lines 66-154).  Stage outputs are written to
the store exactly as the source does.  `add_summary` only touches the
semantic vector store (additive, not required for correctness per spec
§4.1), but its arguments are evaluated at the call site, so
`domain_info["description"]` (line 75) and `data_info.get("summary", ...)`
(line 99) can still raise.  Only the DataFinder, ExperimentDesigner,
Critic and PaperGenerator calls sit inside try/except; the DomainScout and
QuestionGenerator calls (lines 71 and 81) do not. -/
def runOnce (o : StageOracles) (st : MemoryState) (saveOk : Bool) :
    Except String (MemoryState × List (String × Json)) := do
  let domain_info ← o.discover
  let st1 := memAdd st "domain" domain_info saveOk
  let _ ← domain_info.getItem "description"
  let summary1 := dictInsert [] "domain" domain_info
  let questions ← o.generateQuestions domain_info
  let st2 := memAdd st1 "questions" questions saveOk
  let summary2 := dictInsert summary1 "questions" questions
  let data_info := match dataAttempt o domain_info questions with
    | .ok v => v
    | .error _ => degradedData
  let st3 := memAdd st2 "data" data_info saveOk
  let _ ← data_info.getD "summary" (Json.str "Data discovery complete")
  let summary3 := dictInsert summary2 "data_info" data_info
  let experiment_results := match o.designExperiment domain_info data_info with
    | .ok v => v
    | .error e => Json.obj [("error", Json.str e)]
  let st4 := memAdd st3 "experiment" experiment_results saveOk
  let summary4 := dictInsert summary3 "experiment_results" experiment_results
  let critique := match o.critiqueStage domain_info experiment_results with
    | .ok v => v
    | .error e => Json.obj [("error", Json.str e)]
  let st5 := memAdd st4 "critique" critique saveOk
  let summary5 := dictInsert summary4 "critique" critique
  let paper := match o.generatePaper (memGet st5 "domain" Json.null)
      (memGet st5 "questions" Json.null) (memGet st5 "data" Json.null)
      (memGet st5 "experiment" Json.null) (memGet st5 "critique" Json.null) with
    | .ok v => v
    | .error e => Json.obj [("error", Json.str e)]
  let st6 := memAdd st5 "paper" paper saveOk
  let summary6 := dictInsert summary5 "paper" paper
  pure (st6, summary6)

/-- One entry of `run_summary["results"]` (lines 41-54): on success the
dict literal {"iteration": i, "status": "success", **result}; on failure
{"iteration": i, "status": "failed", "error": str(e)}. -/
def iterEntry (runOnceResult : Except String (List (String × Json)))
    (i : Nat) : Json :=
  match runOnceResult with
  | .ok r => Json.obj (r.foldl (fun acc kv => dictInsert acc kv.1 kv.2)
      (dictInsert (dictInsert [] "iteration" (Json.num i)) "status"
        (Json.str "success")))
  | .error e => Json.obj [("iteration", Json.num i), ("status", Json.str "failed"),
      ("error", Json.str e)]

/-- Embedding of `Orchestrator.run_cycle` (lines 32-64).  The per-iteration outcome of
`self._run_once()` is the oracle `runOnceO` indexed by the 1-based
iteration number (the agents and the store state vary between iterations);
`now` stands for `datetime.now().isoformat()`.  The final write of
`run_summary.json` is plain file I/O and does not change the returned
value. -/
def run_cycle (runOnceO : Nat → Except String (List (String × Json)))
    (iterations : Nat) (now : String) : Json :=
  Json.obj [("results", Json.arr ((List.range iterations).map fun i =>
      iterEntry (runOnceO (i + 1)) (i + 1))),
    ("status", Json.str "success"), ("completed_at", Json.str now)]

/-- The 3-iteration oracle of the spec's scenario: the forced stage
exception on iteration 2 reaches the iteration boundary, the other
iterations succeed. -/
def runOnce3 : Nat → Except String (List (String × Json)) :=
  fun i => if i = 2 then .error "forced stage failure"
    else .ok [("domain", Json.str "d")]

/-- C8: StructuredStore round-trip — get after add returns the stored
value; after a simulated restart from the persisted file the value is still
there; get of an absent key returns the default and never raises (it is a
total function); and a failed disk write during add neither raises nor
prevents the in-memory update. -/
theorem structured_store_roundtrip (st : MemoryState) (k k2 : String)
    (v default : Json) (saveOk : Bool)
    (habsent : st.structured_memory.lookup k2 = none) :
    memGet (memAdd st k v saveOk) k Json.null = v ∧
    memGet (restartStore (memAdd st k v true)) k Json.null = v ∧
    memGet st k2 default = default ∧
    memGet (memAdd st k v false) k Json.null = v ∧
    (memAdd st k v false).disk = st.disk := by
  refine ⟨?_, ?_, ?_, ?_, rfl⟩
  · simp [memGet, memAdd, dictInsert_lookup]
  · simp [memGet, restartStore, memAdd, dictInsert_lookup]
  · simp [memGet, habsent]
  · simp [memGet, memAdd, dictInsert_lookup]

/-- Witness for C8 on a concrete store. -/
theorem structured_store_roundtrip_witness :
    (MemoryState.init.structured_memory.lookup "missing" = none) ∧
    (memGet (memAdd MemoryState.init "domain" (Json.str "x") true) "domain"
        Json.null = Json.str "x" ∧
      memGet (restartStore (memAdd MemoryState.init "domain" (Json.str "x") true))
        "domain" Json.null = Json.str "x" ∧
      memGet MemoryState.init "missing" (Json.str "fallback") =
        Json.str "fallback" ∧
      memGet (memAdd MemoryState.init "domain" (Json.str "x") false) "domain"
        Json.null = Json.str "x" ∧
      (memAdd MemoryState.init "domain" (Json.str "x") false).disk =
        MemoryState.init.disk) :=
  ⟨rfl, structured_store_roundtrip MemoryState.init "domain" "missing"
    (Json.str "x") (Json.str "fallback") true rfl⟩

/-- Keys absent from the merged-in dict keep the accumulator's value under
a left fold of dict updates (`{**a, **b}` semantics). -/
theorem foldl_dictInsert_lookup (r : List (String × Json))
    (acc : List (String × Json)) (k : String) (hk : r.lookup k = none) :
    (r.foldl (fun acc kv => dictInsert acc kv.1 kv.2) acc).lookup k =
      acc.lookup k := by
  induction r generalizing acc with
  | nil => rfl
  | cons hd tl ih =>
    obtain ⟨k1, v1⟩ := hd
    simp only [List.lookup] at hk
    cases hbeq : (k == k1) with
    | true => rw [hbeq] at hk; simp at hk
    | false =>
      rw [hbeq] at hk
      simp only [List.foldl_cons]
      rw [ih _ hk, dictInsert_lookup_ne]
      intro he
      rw [he] at hbeq
      simp at hbeq

/-- C1: run_cycle returns a summary whose results list has exactly
`iterations` entries in iteration order; an iteration whose `_run_once`
raised contributes exactly the failed record with the error message while
the remaining iterations still execute (every index carries the entry of
its own `_run_once` outcome); a succeeded iteration's entry is its summary
dict tagged with its 1-based index and status "success"; and the overall
status is "success". -/
theorem run_cycle_results (runOnceO : Nat → Except String (List (String × Json)))
    (iterations : Nat) (now : String) (h1 : 1 ≤ iterations) :
    ∃ entries,
      run_cycle runOnceO iterations now =
        Json.obj [("results", Json.arr entries), ("status", Json.str "success"),
          ("completed_at", Json.str now)] ∧
      entries.length = iterations ∧
      (∀ i, i < iterations →
        entries.get? i = some (iterEntry (runOnceO (i + 1)) (i + 1))) ∧
      (∀ i e, runOnceO (i + 1) = .error e →
        iterEntry (runOnceO (i + 1)) (i + 1) =
          Json.obj [("iteration", Json.num (i + 1)),
            ("status", Json.str "failed"), ("error", Json.str e)]) ∧
      (∀ i r, runOnceO (i + 1) = .ok r → r.lookup "status" = none →
        r.lookup "iteration" = none →
        ∃ fs, iterEntry (runOnceO (i + 1)) (i + 1) = Json.obj fs ∧
          fs.lookup "status" = some (Json.str "success") ∧
          fs.lookup "iteration" = some (Json.num (i + 1))) := by
  refine ⟨(List.range iterations).map fun i =>
    iterEntry (runOnceO (i + 1)) (i + 1), rfl, by simp, ?_, ?_, ?_⟩
  · intro i hi
    rw [List.get?_map, List.get?_range hi]
    rfl
  · intro i e he
    rw [iterEntry.eq_def, he]
    norm_num
  · intro i r hr hstat hiter
    refine ⟨_, by rw [iterEntry.eq_def, hr], ?_, ?_⟩
    · rw [foldl_dictInsert_lookup _ _ _ hstat, dictInsert_lookup]
    · rw [foldl_dictInsert_lookup _ _ _ hiter,
        dictInsert_lookup_ne _ _ _ _ (by decide), dictInsert_lookup]
      norm_num

/-- Witness for C1, realizing the spec's scenario: three iterations with a
stage forced to throw only on iteration 2 yield a summary of length 3 with
iteration 2 failed and iterations 1 and 3 success, overall status
"success". -/
theorem run_cycle_results_witness :
    (1 ≤ 3) ∧
    run_cycle runOnce3 3 "t" = Json.obj [
      ("results", Json.arr [
        Json.obj [("iteration", Json.num 1), ("status", Json.str "success"),
          ("domain", Json.str "d")],
        Json.obj [("iteration", Json.num 2), ("status", Json.str "failed"),
          ("error", Json.str "forced stage failure")],
        Json.obj [("iteration", Json.num 3), ("status", Json.str "success"),
          ("domain", Json.str "d")]]),
      ("status", Json.str "success"), ("completed_at", Json.str "t")] ∧
    (∃ entries,
      run_cycle runOnce3 3 "t" =
        Json.obj [("results", Json.arr entries), ("status", Json.str "success"),
          ("completed_at", Json.str "t")] ∧
      entries.length = 3 ∧
      (∀ i, i < 3 → entries.get? i = some (iterEntry (runOnce3 (i + 1)) (i + 1))) ∧
      (∀ i e, runOnce3 (i + 1) = .error e →
        iterEntry (runOnce3 (i + 1)) (i + 1) =
          Json.obj [("iteration", Json.num (i + 1)),
            ("status", Json.str "failed"), ("error", Json.str e)]) ∧
      (∀ i r, runOnce3 (i + 1) = .ok r → r.lookup "status" = none →
        r.lookup "iteration" = none →
        ∃ fs, iterEntry (runOnce3 (i + 1)) (i + 1) = Json.obj fs ∧
          fs.lookup "status" = some (Json.str "success") ∧
          fs.lookup "iteration" = some (Json.num (i + 1)))) :=
  ⟨by norm_num, rfl, run_cycle_results runOnce3 3 "t" (by norm_num)⟩

/-- Stage oracles in which only DomainScout raises. -/
def failingDomainOracles : StageOracles where
  discover := .error "domain discovery blew up"
  generateQuestions := fun _ => .ok (Json.arr [])
  findData := fun _ _ => .ok degradedData
  designExperiment := fun _ _ => .ok (Json.obj [])
  critiqueStage := fun _ _ => .ok (Json.obj [])
  generatePaper := fun _ _ _ _ _ => .ok (Json.obj [])

/-- Counterexample to C2: an exception inside the DomainDiscovery stage is
NOT caught at a per-stage boundary of `_run_once` — it propagates out of
`_run_once` to the iteration boundary (lines 71 and 81 of orchestrator.py
sit outside any try/except). -/
theorem run_once_domain_escape_counterexample :
    runOnce failingDomainOracles MemoryState.init true =
      .error "domain discovery blew up" := rfl

/-- C2 (amended): only the DatasetDiscovery, ExperimentDesign, Critique and
ReportSynthesis stages are individually wrapped; an exception inside one of
them is replaced by its stage-specific degraded default, stored under the
stage key, and execution proceeds; exceptions from DomainDiscovery or
QuestionGeneration instead escape to the iteration boundary.  Whenever
DomainDiscovery and QuestionGeneration succeed (with a domain record that
carries a description and a data stage yielding a dict when it does not
fail), `_run_once` returns normally, and each later key of the store holds
the stage's result or its degraded default. -/
theorem run_once_stage_isolation (o : StageOracles) (st : MemoryState)
    (saveOk : Bool) (dj desc q : Json)
    (hd : o.discover = .ok dj)
    (hdesc : dj.getItem "description" = .ok desc)
    (hq : o.generateQuestions dj = .ok q)
    (hdata : ∀ v, dataAttempt o dj q = .ok v → v.isObj = true) :
    ∃ stOut summary dataV expV critV paperV,
      runOnce o st saveOk = .ok (stOut, summary) ∧
      dataV = (match dataAttempt o dj q with
        | .ok v => v
        | .error _ => degradedData) ∧
      expV = (match o.designExperiment dj dataV with
        | .ok v => v
        | .error e => Json.obj [("error", Json.str e)]) ∧
      critV = (match o.critiqueStage dj expV with
        | .ok v => v
        | .error e => Json.obj [("error", Json.str e)]) ∧
      paperV = (match o.generatePaper dj q dataV expV critV with
        | .ok v => v
        | .error e => Json.obj [("error", Json.str e)]) ∧
      memGet stOut "domain" Json.null = dj ∧
      memGet stOut "questions" Json.null = q ∧
      memGet stOut "data" Json.null = dataV ∧
      memGet stOut "experiment" Json.null = expV ∧
      memGet stOut "critique" Json.null = critV ∧
      memGet stOut "paper" Json.null = paperV ∧
      summary.lookup "paper" = some paperV := by
  have hobjOf : ∀ v : Json, v.isObj = true → ∃ fs, v = Json.obj fs := by
    intro v hv
    cases v with
    | obj fs => exact ⟨fs, rfl⟩
    | null => simp [Json.isObj] at hv
    | bool b => simp [Json.isObj] at hv
    | num qq => simp [Json.isObj] at hv
    | str s => simp [Json.isObj] at hv
    | arr xs => simp [Json.isObj] at hv
  have hdataObj : (match dataAttempt o dj q with
      | .ok v => v
      | .error _ => degradedData).isObj = true := by
    cases hda : dataAttempt o dj q with
    | ok w => exact hdata w hda
    | error e => rfl
  obtain ⟨fs, hfs⟩ := hobjOf _ hdataObj
  unfold runOnce
  simp only [hd, hdesc, hq, ok_bind]
  rw [hfs]
  simp only [Json.getD, ok_bind, pure_eq_ok]
  refine ⟨_, _, Json.obj fs, _, _, _, rfl, rfl, rfl, rfl, rfl,
    ?_, ?_, ?_, ?_, ?_, ?_, ?_⟩ <;>
    simp [memGet, memAdd, dictInsert_lookup, dictInsert_lookup_ne]

/-- A concrete domain record for exercising the iteration body. -/
def isolationDomain : Json :=
  Json.obj [("domain_name", Json.str "Test Domain"), ("description", Json.str "x")]

/-- Stage oracles in which only the ExperimentDesigner raises. -/
def isolationOracles : StageOracles where
  discover := .ok isolationDomain
  generateQuestions := fun _ => .ok (Json.arr [])
  findData := fun _ _ => .ok (Json.obj [("metadata", Json.arr []),
    ("summary", Json.str "found nothing")])
  designExperiment := fun _ _ => .error "experiment design blew up"
  critiqueStage := fun _ _ => .ok (Json.obj [])
  generatePaper := fun _ _ _ _ _ => .ok (Json.obj [])

/-- Witness for the amended C2: with a failing ExperimentDesign stage the
iteration still returns normally and the store holds the degraded
experiment record. -/
theorem run_once_stage_isolation_witness :
    (isolationOracles.discover = .ok isolationDomain) ∧
    (∃ stOut summary dataV expV critV paperV,
      runOnce isolationOracles MemoryState.init true = .ok (stOut, summary) ∧
      dataV = (match dataAttempt isolationOracles isolationDomain (Json.arr []) with
        | .ok v => v
        | .error _ => degradedData) ∧
      expV = (match isolationOracles.designExperiment isolationDomain dataV with
        | .ok v => v
        | .error e => Json.obj [("error", Json.str e)]) ∧
      critV = (match isolationOracles.critiqueStage isolationDomain expV with
        | .ok v => v
        | .error e => Json.obj [("error", Json.str e)]) ∧
      paperV = (match isolationOracles.generatePaper isolationDomain (Json.arr [])
          dataV expV critV with
        | .ok v => v
        | .error e => Json.obj [("error", Json.str e)]) ∧
      memGet stOut "domain" Json.null = isolationDomain ∧
      memGet stOut "questions" Json.null = Json.arr [] ∧
      memGet stOut "data" Json.null = dataV ∧
      memGet stOut "experiment" Json.null = expV ∧
      memGet stOut "critique" Json.null = critV ∧
      memGet stOut "paper" Json.null = paperV ∧
      summary.lookup "paper" = some paperV) :=
  ⟨rfl, run_once_stage_isolation isolationOracles MemoryState.init true
    isolationDomain (Json.str "x") (Json.arr []) rfl rfl rfl
    (by intro v hv; injection hv with h; rw [← h]; rfl)⟩

/-! ## ExperimentDesignerAgent (`backend/agents/experiment_designer.py`) -/

mutual

/-- Python `str()` rendering of a value.  It is used only to build message
strings (f-string interpolation); no claim inspects the text.  Python
renders single-quoted strings inside containers; double quotes are used
here, which no proved statement can observe. -/
def pyStr : Json → String
  | .null => "None"
  | .bool true => "True"
  | .bool false => "False"
  | .num q => toString q
  | .str s => s
  | .arr xs => "[" ++ pyStrList xs ++ "]"
  | .obj fs => "\x7b" ++ pyStrFields fs ++ "\x7d"

def pyStrQ : Json → String
  | .str s => "\"" ++ s ++ "\""
  | j => pyStr j

def pyStrList : List Json → String
  | [] => ""
  | [x] => pyStrQ x
  | x :: xs => pyStrQ x ++ ", " ++ pyStrList xs

def pyStrFields : List (String × Json) → String
  | [] => ""
  | [(k, v)] => "\"" ++ k ++ "\": " ++ pyStrQ v
  | (k, v) :: fs => "\"" ++ k ++ "\": " ++ pyStrQ v ++ ", " ++ pyStrFields fs

end

/-- The results directory on disk, as the set of artifact paths that
exist. -/
structure FS where
  files : List String
  deriving DecidableEq

/-- Predicate `os.path.exists` over the modelled artifact set. -/
def pathExists (fs : FS) (p : String) : Bool := fs.files.contains p

/-- Outcomes of the external calls `design_experiment` makes, as oracles:
`analyzeDatasets` (image utilities, out of scope per spec §1; its result
never feeds the visualization-path logic), `llmProposal`
(`propose_experiment`, whose JSON-extraction fallback is folded into the
oracle's Json result; an `error` is `llm.invoke` raising), the
contextual-fallback LLM reply, matplotlib chart drawing, and the
individual savefig calls. -/
structure DesignOracles where
  analyzeDatasets : Except String Json
  llmProposal : Except String Json
  ctxLlm : Except String Json
  renderOk : Bool
  savefigOk : Bool
  randSuffix : Nat
  placeholderOk : Bool
  jsonDumpOk : Bool

/-- Embedding of `_generate_contextual_fallback` (lines 148-188): ask the LLM for a
small labels/values dataset; on any failure return the fixed defaults.
The prompt interpolates `domain_info.get(...)`, whose failure on a
non-dict domain is also caught by this function's own try/except. -/
def ctxFallback (o : DesignOracles) (domain_info : Json) :
    Json × Json × Json :=
  match (do
    let _ ← domain_info.getD "domain_name" (Json.str "General Science")
    let _ ← domain_info.getD "description" (Json.str "")
    let j ← o.ctxLlm
    let labels ← j.getD "labels"
      (Json.arr [Json.str "A", Json.str "B", Json.str "C"])
    let values ← j.getD "values"
      (Json.obj [("Metric", Json.arr [Json.num 1, Json.num 2, Json.num 3])])
    let vtype ← j.getD "type" (Json.str "bar_chart")
    pure (labels, values, vtype) : Except String (Json × Json × Json)) with
  | .ok r => r
  | .error _ => (Json.arr [Json.str "A", Json.str "B", Json.str "C"],
      Json.obj [("Metric", Json.arr [Json.num 1, Json.num 2, Json.num 3])],
      Json.str "bar_chart")

/-- Embedding of `_generate_visualization_from_llm` (lines 100-143): one big try/except
returning None on failure.  Missing labels/values trigger the contextual
fallback (tier 2) inside the same call; chart drawing (including the
unknown-type bar default and the empty-pie failure modes) is the rendering
oracle; a successful savefig adds the randomly-suffixed artifact. -/
def generateVisualizationFromLlm (fs : FS) (o : DesignOracles)
    (vis_spec domain_info : Json) : FS × Option String :=
  match (do
    let vtype ← vis_spec.getD "type" (Json.str "bar_chart")
    let dataJ ← vis_spec.getD "data" (Json.obj [])
    let labels ← dataJ.getD "labels" (Json.arr [])
    let values ← dataJ.getD "values" (Json.obj [])
    let _lvt := if !labels.truthy || !values.truthy
      then ctxFallback o domain_info
      else (labels, values, vtype)
    if o.renderOk = false then throw "chart rendering failed"
    let savePath := "backend/results/experiments/visualization_"
      ++ toString o.randSuffix ++ ".png"
    if o.savefigOk then
      pure (FS.mk (savePath :: fs.files), savePath)
    else throw "savefig failed" : Except String (FS × String)) with
  | .ok r => (r.1, some r.2)
  | .error _ => (fs, none)

/-- Lines 236-243: fall back to `default_chart.png`, creating the
placeholder image when it does not exist yet; a failing placeholder write
raises out of `design_experiment`. -/
def ensureDefaultChart (fs : FS) (o : DesignOracles) :
    Except String (FS × String) :=
  if pathExists fs "backend/results/experiments/default_chart.png" then
    .ok (fs, "backend/results/experiments/default_chart.png")
  else if o.placeholderOk then
    .ok (FS.mk ("backend/results/experiments/default_chart.png" :: fs.files),
      "backend/results/experiments/default_chart.png")
  else .error "placeholder savefig failed"

/-- The two branches of lines 218-232: generate directly from the
proposal's `visualization_to_generate`, or build an explicit
contextual-fallback spec first.  Note line 230 interpolates
`domain_info.get("domain_name", ...)` outside any try, so a non-dict
domain raises here. -/
def visAttempt (fs : FS) (o : DesignOracles)
    (llm_result domain_info : Json) (hasVis : Bool) :
    Except String (FS × Option String) :=
  if hasVis then do
    let visSpec ← llm_result.getItem "visualization_to_generate"
    pure (generateVisualizationFromLlm fs o visSpec domain_info)
  else do
    let lvt := ctxFallback o domain_info
    let dn ← domain_info.getD "domain_name" (Json.str "Unknown Domain")
    let fallback_spec := Json.obj [("type", lvt.2.2),
      ("data", Json.obj [("labels", lvt.1), ("values", lvt.2.1)]),
      ("description", Json.str ("Fallback " ++ pyStr lvt.2.2
        ++ " visualization for " ++ pyStr dn))]
    pure (generateVisualizationFromLlm fs o fallback_spec domain_info)

/-- Lines 235-243: keep the generated path only when it exists on disk,
otherwise switch to (and if needed create) the placeholder. -/
def ensureVisualizationExists (o : DesignOracles)
    (visRes : FS × Option String) : Except String (FS × String) :=
  match visRes.2 with
  | some p =>
    if pathExists visRes.1 p then .ok (visRes.1, p)
    else ensureDefaultChart visRes.1 o
  | none => ensureDefaultChart visRes.1 o

/-- Embedding of `design_experiment` (lines 210-256): analyze datasets, ask for a
proposal, generate the visualization, enforce that the final path exists
on disk, then persist the design record (which may itself raise). -/
def design_experiment (fs : FS) (o : DesignOracles)
    (domain_info data_info : Json) : Except String (FS × Json) := do
  let summaries ← o.analyzeDatasets
  let llm_result ← o.llmProposal
  let hasVis ← Json.member "visualization_to_generate" llm_result
  let visRes ← visAttempt fs o llm_result domain_info hasVis
  let ensured ← ensureVisualizationExists o visRes
  let output := Json.obj [("dataset_analysis", summaries),
    ("experiment_proposal", llm_result),
    ("visualization_path", Json.str ensured.2)]
  if o.jsonDumpOk then pure (ensured.1, output)
  else throw "failed to write final_experiment_design.json"

theorem ensureDefaultChart_exists (fs : FS) (o : DesignOracles) (fs3 : FS)
    (p : String) (h : ensureDefaultChart fs o = .ok (fs3, p)) :
    pathExists fs3 p = true := by
  unfold ensureDefaultChart at h
  split at h
  · injection h with h2
    injection h2 with h21 h22
    subst h21
    subst h22
    assumption
  · split at h
    · injection h with h2
      injection h2 with h21 h22
      subst h21
      subst h22
      simp [pathExists, List.contains]
    · exact absurd h (by simp)

theorem ensureVisualizationExists_exists (o : DesignOracles)
    (visRes : FS × Option String) (fs3 : FS) (p : String)
    (h : ensureVisualizationExists o visRes = .ok (fs3, p)) :
    pathExists fs3 p = true := by
  unfold ensureVisualizationExists at h
  cases hv : visRes.2 with
  | some q =>
    rw [hv] at h
    split at h
    · split at h
      · injection h with h2
        injection h2 with h21 h22
        subst h21
        subst h22
        assumption
      · exact ensureDefaultChart_exists _ _ _ _ h
    · exact ensureDefaultChart_exists _ _ _ _ h
  | none =>
    rw [hv] at h
    exact ensureDefaultChart_exists _ _ _ _ h

/-- C7: whenever `design_experiment` returns normally, the returned
record's visualization_path names a file that exists on disk at return
time — the existence check at lines 235-243 either confirms the generated
artifact or substitutes (and if needed creates) the tier-3 placeholder. -/
theorem design_experiment_vis_exists (fs : FS) (o : DesignOracles)
    (domain_info data_info : Json) (fs2 : FS) (out : Json)
    (h : design_experiment fs o domain_info data_info = .ok (fs2, out)) :
    ∃ p fields, out = Json.obj fields ∧
      fields.lookup "visualization_path" = some (Json.str p) ∧
      pathExists fs2 p = true := by
  unfold design_experiment at h
  cases hsum : o.analyzeDatasets with
  | error e => simp [hsum] at h
  | ok summaries =>
  cases hlp : o.llmProposal with
  | error e => simp [hsum, hlp] at h
  | ok llm_result =>
  cases hmem : Json.member "visualization_to_generate" llm_result with
  | error e => simp [hsum, hlp, hmem] at h
  | ok hasVis =>
  cases hva : visAttempt fs o llm_result domain_info hasVis with
  | error e => simp [hsum, hlp, hmem, hva] at h
  | ok visRes =>
  cases hens : ensureVisualizationExists o visRes with
  | error e => simp [hsum, hlp, hmem, hva, hens] at h
  | ok ensured =>
  cases hdump : o.jsonDumpOk with
  | false => simp [hsum, hlp, hmem, hva, hens, hdump] at h
  | true =>
    simp only [hsum, hlp, hmem, hva, hens, hdump, ok_bind, if_true,
      pure_eq_ok, Except.ok.injEq, Prod.mk.injEq] at h
    obtain ⟨hfs2, hout⟩ := h
    refine ⟨ensured.2, _, hout.symm, ?_, ?_⟩
    · simp [List.lookup]
    · rw [← hfs2]
      exact ensureVisualizationExists_exists o visRes ensured.1 ensured.2
        (by rw [hens])

/-- Oracles for the tier-3 scenario: the proposal has no chart spec, the
contextual-fallback LLM raises, rendering raises, only the local
placeholder write succeeds. -/
def failingVisOracles : DesignOracles where
  analyzeDatasets := .ok (Json.arr [])
  llmProposal := .ok (Json.obj [("error", Json.str "Failed to parse LLM output"),
    ("raw_output", Json.str "")])
  ctxLlm := .error "contextual fallback LLM failed"
  renderOk := false
  savefigOk := false
  randSuffix := 1234
  placeholderOk := true
  jsonDumpOk := true

/-- Witness for C7: with both primary and contextual fallback generation
failing, the run still returns a record whose visualization_path is the
freshly created placeholder, which exists on disk. -/
theorem design_experiment_vis_exists_witness :
    design_experiment (FS.mk []) failingVisOracles (Json.obj [])
        (Json.obj []) =
      .ok (FS.mk ["backend/results/experiments/default_chart.png"],
        Json.obj [("dataset_analysis", Json.arr []),
          ("experiment_proposal",
            Json.obj [("error", Json.str "Failed to parse LLM output"),
              ("raw_output", Json.str "")]),
          ("visualization_path",
            Json.str "backend/results/experiments/default_chart.png")]) ∧
    (∃ p fields,
      Json.obj [("dataset_analysis", Json.arr []),
        ("experiment_proposal",
          Json.obj [("error", Json.str "Failed to parse LLM output"),
            ("raw_output", Json.str "")]),
        ("visualization_path",
          Json.str "backend/results/experiments/default_chart.png")] =
        Json.obj fields ∧
      fields.lookup "visualization_path" = some (Json.str p) ∧
      pathExists (FS.mk ["backend/results/experiments/default_chart.png"]) p =
        true) :=
  ⟨rfl, design_experiment_vis_exists (FS.mk []) failingVisOracles
    (Json.obj []) (Json.obj [])
    (FS.mk ["backend/results/experiments/default_chart.png"])
    (Json.obj [("dataset_analysis", Json.arr []),
      ("experiment_proposal",
        Json.obj [("error", Json.str "Failed to parse LLM output"),
          ("raw_output", Json.str "")]),
      ("visualization_path",
        Json.str "backend/results/experiments/default_chart.png")]) rfl⟩

/-! ## PaperGeneratorAgent input normalization
(`backend/agents/paper_generator.py`, lines 207-275) -/

/-- Lines 210-213: domain_info normalization. -/
def normDomain : Json → Json
  | .str s => Json.obj [("domain_name", Json.str s), ("description", Json.str "")]
  | .obj fs => Json.obj fs
  | j => Json.obj [("domain_name", Json.str "Unknown Domain"),
      ("description", Json.str (pyStr j))]

/-- Lines 216-224: questions normalization.  `loads` is the external
`json.loads` (`none` = the parse raised). -/
def normQuestions (loads : String → Option Json) : Json → Json
  | .str s =>
    match loads s with
    | some v => v
    | none => Json.arr [Json.str s]
  | .arr xs => Json.arr xs
  | j => Json.arr [Json.str (pyStr j)]

/-- Statement `if k not in d: d[k] = v` — the ensure-key steps of lines 236-237 and
256-260; both the membership test and the assignment raise on values that
are not dicts (e.g. a raw string that parsed to a number or list). -/
def ensureKey (j : Json) (k : String) (v : Json) : Except String Json := do
  let m ← Json.member k j
  if m then pure j
  else match j with
    | .obj fs => pure (Json.obj (dictInsert fs k v))
    | _ => .error "TypeError: item assignment"

/-- Lines 227-237: data_info normalization plus the ensured metadata key. -/
def normDataInfo (loads : String → Option Json) (j : Json) :
    Except String Json :=
  let d := match j with
    | .str s =>
      match loads s with
      | some v => v
      | none => Json.obj [("summary", Json.str s), ("metadata", Json.arr [])]
    | .obj fs => Json.obj fs
    | j2 => Json.obj [("summary", Json.str (pyStr j2)), ("metadata", Json.arr [])]
  ensureKey d "metadata" (Json.arr [])

/-- Lines 240-260: experiment_results normalization with two ensured
keys. -/
def normExperiment (loads : String → Option Json) (j : Json) :
    Except String Json := do
  let d := match j with
    | .str s =>
      match loads s with
      | some v => v
      | none => Json.obj [("summary", Json.str s),
          ("experiment_proposal", Json.obj []), ("dataset_analysis", Json.arr [])]
    | .obj fs => Json.obj fs
    | j2 => Json.obj [("summary", Json.str (pyStr j2)),
        ("experiment_proposal", Json.obj []), ("dataset_analysis", Json.arr [])]
  let d2 ← ensureKey d "experiment_proposal" (Json.obj [])
  ensureKey d2 "dataset_analysis" (Json.arr [])

/-- Lines 263-275: critique normalization (no ensured keys). -/
def normCritique (loads : String → Option Json) : Json → Json
  | .str s =>
    match loads s with
    | some v => v
    | none => Json.obj [("notes", Json.str s), ("strengths", Json.arr []),
        ("weaknesses", Json.arr []), ("risks", Json.arr []),
        ("recommended_fixes", Json.arr [])]
  | .obj fs => Json.obj fs
  | j => Json.obj [("notes", Json.str (pyStr j))]

/-- The behavior of the real `json.loads` at the input "5" (it parses to
the number 5); other strings are irrelevant to the counterexample and
modelled as parse failures. -/
def loads5 : String → Option Json :=
  fun s => if s = "5" then some (Json.num 5) else none

/-- A raw string parsing to the expected container type, or failing to
parse — the inputs on which the questions normalization is idempotent. -/
def parsesToArrOrFails (loads : String → Option Json) (j : Json) : Prop :=
  ∀ s, j = Json.str s → loads s = none ∨ ∃ xs, loads s = some (Json.arr xs)

def parsesToObjOrFails (loads : String → Option Json) (j : Json) : Prop :=
  ∀ s, j = Json.str s → loads s = none ∨ ∃ fs, loads s = some (Json.obj fs)

theorem dictInsert_hasKey (fs : List (String × Json)) (k : String) (v : Json) :
    ((dictInsert fs k v).any fun kv => kv.1 == k) = true := by
  induction fs with
  | nil => simp [dictInsert]
  | cons hd tl ih =>
    obtain ⟨k1, v1⟩ := hd
    by_cases h : k1 = k
    · subst h; simp [dictInsert]
    · simp [dictInsert, h, ih]

theorem dictInsert_any_preserve (fs : List (String × Json)) (k k2 : String)
    (v : Json) (h : (fs.any fun kv => kv.1 == k2) = true) :
    ((dictInsert fs k v).any fun kv => kv.1 == k2) = true := by
  induction fs with
  | nil => simp at h
  | cons hd tl ih =>
    obtain ⟨k1, v1⟩ := hd
    by_cases hk : k1 = k
    · subst hk
      simp only [List.any_cons] at h
      simp [dictInsert, List.any_cons, h]
    · simp only [List.any_cons] at h
      rcases Bool.or_eq_true_iff.mp h with h1 | h2
      · simp [dictInsert, hk, List.any_cons, h1]
      · simp [dictInsert, hk, List.any_cons, ih h2]

theorem ensureKey_present (fs : List (String × Json)) (k : String) (v : Json)
    (h : (fs.any fun kv => kv.1 == k) = true) :
    ensureKey (Json.obj fs) k v = .ok (Json.obj fs) := by
  unfold ensureKey
  simp [Json.member, h]

theorem ensureKey_obj (fs : List (String × Json)) (k : String) (v : Json) :
    ∃ fs2, ensureKey (Json.obj fs) k v = .ok (Json.obj fs2) ∧
      (fs2.any fun kv => kv.1 == k) = true ∧
      (∀ k2, (fs.any fun kv => kv.1 == k2) = true →
        (fs2.any fun kv => kv.1 == k2) = true) := by
  by_cases h : (fs.any fun kv => kv.1 == k) = true
  · exact ⟨fs, ensureKey_present fs k v h, h, fun _ hk => hk⟩
  · refine ⟨dictInsert fs k v, ?_, dictInsert_hasKey fs k v,
      fun k2 hk => dictInsert_any_preserve fs k k2 v hk⟩
    unfold ensureKey
    simp [Json.member, h]

/-- Counterexample to C9: the questions normalization is not idempotent on
the raw string "5" — json.loads("5") parses to the number 5, so one
application yields 5 while a second application yields the list ["5"]. -/
theorem normalize_questions_not_idempotent :
    normQuestions loads5 (normQuestions loads5 (Json.str "5")) ≠
      normQuestions loads5 (Json.str "5") := by
  intro h
  have h2 := congrArg Json.isArr h
  simp [normQuestions, loads5, Json.isArr] at h2

theorem normDataInfo_ok_obj (loads : String → Option Json) (j x : Json)
    (hp : parsesToObjOrFails loads j)
    (hx : normDataInfo loads j = .ok x) :
    ∃ fs2, x = Json.obj fs2 ∧
      (fs2.any fun kv => kv.1 == "metadata") = true := by
  have hobj : ∀ fs, ensureKey (Json.obj fs) "metadata" (Json.arr []) = .ok x →
      ∃ fs2, x = Json.obj fs2 ∧ (fs2.any fun kv => kv.1 == "metadata") = true := by
    intro fs he
    obtain ⟨fs2, he2, hk, _⟩ := ensureKey_obj fs "metadata" (Json.arr [])
    rw [he2] at he
    injection he with he
    exact ⟨fs2, he.symm, hk⟩
  unfold normDataInfo at hx
  cases j with
  | str s =>
    dsimp only at hx
    rcases hp s rfl with hn | ⟨fs, hf⟩
    · rw [hn] at hx
      exact hobj _ hx
    · rw [hf] at hx
      exact hobj _ hx
  | obj fs => exact hobj _ hx
  | null => exact hobj _ hx
  | bool b => exact hobj _ hx
  | num q => exact hobj _ hx
  | arr xs => exact hobj _ hx

theorem normExperiment_ok_obj (loads : String → Option Json) (j x : Json)
    (hp : parsesToObjOrFails loads j)
    (hx : normExperiment loads j = .ok x) :
    ∃ fs2, x = Json.obj fs2 ∧
      (fs2.any fun kv => kv.1 == "experiment_proposal") = true ∧
      (fs2.any fun kv => kv.1 == "dataset_analysis") = true := by
  have hobj : ∀ fs,
      (do
        let d2 ← ensureKey (Json.obj fs) "experiment_proposal" (Json.obj [])
        ensureKey d2 "dataset_analysis" (Json.arr []) :
        Except String Json) = .ok x →
      ∃ fs2, x = Json.obj fs2 ∧
        (fs2.any fun kv => kv.1 == "experiment_proposal") = true ∧
        (fs2.any fun kv => kv.1 == "dataset_analysis") = true := by
    intro fs he
    obtain ⟨fsa, hea, hka, _⟩ := ensureKey_obj fs "experiment_proposal" (Json.obj [])
    rw [hea] at he
    simp only [ok_bind] at he
    obtain ⟨fsb, heb, hkb, hpres⟩ := ensureKey_obj fsa "dataset_analysis" (Json.arr [])
    rw [heb] at he
    injection he with he
    exact ⟨fsb, he.symm, hpres _ hka, hkb⟩
  unfold normExperiment at hx
  cases j with
  | str s =>
    dsimp only at hx
    rcases hp s rfl with hn | ⟨fs, hf⟩
    · rw [hn] at hx
      exact hobj _ hx
    · rw [hf] at hx
      exact hobj _ hx
  | obj fs => exact hobj _ hx
  | null => exact hobj _ hx
  | bool b => exact hobj _ hx
  | num q => exact hobj _ hx
  | arr xs => exact hobj _ hx

/-- C9 (amended): normalization is idempotent for the domain field on all
inputs, and for the questions, data, experiment and critique fields on all
inputs whose raw-string case either fails to JSON-parse or parses to the
field's expected container type (a list for questions, a dict for the
others).  A raw string parsing to any other JSON type breaks idempotence
(see the counterexample) and, for the data and experiment fields, can make
the ensure-key step raise. -/
theorem normalization_idempotent (loads : String → Option Json)
    (jd jq jdi je jc : Json)
    (hq : parsesToArrOrFails loads jq)
    (hdi : parsesToObjOrFails loads jdi)
    (he : parsesToObjOrFails loads je)
    (hc : parsesToObjOrFails loads jc) :
    normDomain (normDomain jd) = normDomain jd ∧
    normQuestions loads (normQuestions loads jq) = normQuestions loads jq ∧
    (∀ x, normDataInfo loads jdi = .ok x → normDataInfo loads x = .ok x) ∧
    (∀ x, normExperiment loads je = .ok x → normExperiment loads x = .ok x) ∧
    normCritique loads (normCritique loads jc) = normCritique loads jc := by
  refine ⟨?_, ?_, ?_, ?_, ?_⟩
  · cases jd <;> rfl
  · cases jq with
    | str s =>
      rcases hq s rfl with hn | ⟨xs, hx⟩
      · simp [normQuestions, hn]
      · simp [normQuestions, hx]
    | null => rfl
    | bool b => rfl
    | num q => rfl
    | arr xs => rfl
    | obj fs => rfl
  · intro x hx
    obtain ⟨fs2, hfs2, hk⟩ := normDataInfo_ok_obj loads jdi x hdi hx
    subst hfs2
    unfold normDataInfo
    exact ensureKey_present fs2 "metadata" (Json.arr []) hk
  · intro x hx
    obtain ⟨fs2, hfs2, hk1, hk2⟩ := normExperiment_ok_obj loads je x he hx
    subst hfs2
    unfold normExperiment
    dsimp only
    rw [ensureKey_present fs2 "experiment_proposal" (Json.obj []) hk1]
    simp only [ok_bind]
    exact ensureKey_present fs2 "dataset_analysis" (Json.arr []) hk2
  · cases jc with
    | str s =>
      rcases hc s rfl with hn | ⟨fs, hf⟩
      · simp [normCritique, hn]
      · simp [normCritique, hf]
    | null => rfl
    | bool b => rfl
    | num q => rfl
    | arr xs => rfl
    | obj fs => rfl

/-- Witness for the amended C9 with the always-failing parse and one input
shape per field. -/
theorem normalization_idempotent_witness :
    parsesToArrOrFails (fun _ => none) (Json.str "q1") ∧
    (normDomain (normDomain (Json.str "physics")) =
        normDomain (Json.str "physics") ∧
      normQuestions (fun _ => none)
          (normQuestions (fun _ => none) (Json.str "q1")) =
        normQuestions (fun _ => none) (Json.str "q1") ∧
      (∀ x, normDataInfo (fun _ => none) (Json.str "d") = .ok x →
        normDataInfo (fun _ => none) x = .ok x) ∧
      (∀ x, normExperiment (fun _ => none) (Json.str "e") = .ok x →
        normExperiment (fun _ => none) x = .ok x) ∧
      normCritique (fun _ => none)
          (normCritique (fun _ => none) (Json.str "c")) =
        normCritique (fun _ => none) (Json.str "c")) :=
  ⟨fun _ _ => Or.inl rfl,
    normalization_idempotent (fun _ => none) (Json.str "physics")
      (Json.str "q1") (Json.str "d") (Json.str "e") (Json.str "c")
      (fun _ _ => Or.inl rfl) (fun _ _ => Or.inl rfl) (fun _ _ => Or.inl rfl)
      (fun _ _ => Or.inl rfl)⟩

end ResearchAgent
